import Mathlib

/-!
# Verification of the system-importer upload / deploy routes

Shallow embedding of the two HTTP route handlers of the repository:

* `src/src/app/api/upload-system/route.ts` — the archive upload / extraction
  handler (`POST`), its module-level `extractionStatus` singleton, the pure
  classifier `detectFileType` and the `extractArchive` helper;
* `src/deploy-route.ts` — the deployment pipeline handler (`POST`) and its
  module-level `deployStatus` singleton.

External effects (filesystem, subprocesses) are modelled by an explicit
environment record supplying each effect's outcome, and each handler is a
pure function from that environment (plus the previous singleton state) to
the HTTP response, the final singleton state, the ordered trace of singleton
states, and the ordered list of side-effecting operations attempted.

String primitives of the JavaScript runtime (`toLowerCase`, `endsWith`,
`trim`, `split`, regex matching against the fixed patterns of the source)
are modelled by executable functions over `String.data` (`List Char`);
`toLowerCase`/`toUpperCase` are modelled on the ASCII range, which covers
every suffix and marker the source compares against.
-/

/-- Whitespace class of JavaScript's `trim` / `\s` restricted to the ASCII
characters that can occur in tool transcripts. -/
def isJsSpace (c : Char) : Bool :=
  c = ' ' || c = '\t' || c = '\n' || c = '\r' || c = '\x0b' || c = '\x0c'

/-- Model of JavaScript `String.prototype.toLowerCase` (ASCII range). -/
def jsToLower (s : String) : String :=
  String.mk (s.data.map Char.toLower)

/-- Model of JavaScript `String.prototype.toUpperCase` (ASCII range). -/
def jsToUpper (s : String) : String :=
  String.mk (s.data.map Char.toUpper)

/-- Model of JavaScript `String.prototype.endsWith`. -/
def jsEndsWith (s pat : String) : Bool :=
  pat.data.isSuffixOf s.data

/-- Trim `isJsSpace` characters from both ends of a character list. -/
def trimCharList (cs : List Char) : List Char :=
  ((cs.dropWhile isJsSpace).reverse.dropWhile isJsSpace).reverse

/-- Model of JavaScript `String.prototype.trim`. -/
def jsTrim (s : String) : String :=
  String.mk (trimCharList s.data)

/-- Split a character list at every occurrence of `c` (model of
JavaScript `split`, which keeps empty segments). -/
def splitCharList (c : Char) : List Char → List (List Char)
  | [] => [[]]
  | x :: xs =>
    let r := splitCharList c xs
    if x = c then [] :: r
    else
      match r with
      | [] => [[x]]
      | h :: t => (x :: h) :: t

/-- Model of JavaScript `output.split('\n')`. -/
def splitLines (s : String) : List String :=
  (splitCharList '\n' s.data).map String.mk

/-- JavaScript `a || b` on strings: the empty string is falsy. -/
def jsOr (a b : String) : String :=
  if a = "" then b else a

/-- The archive kinds of the source's `FileType` union
(`'tar' | 'tar.gz' | 'zip' | 'rar' | 'unknown'`). -/
inductive FileType where
  | tar
  | targz
  | zip
  | rar
  | unknown
deriving DecidableEq, Repr

/-- The string carried by each `FileType` value in the source. -/
def ftStr : FileType → String
  | .tar => "tar"
  | .targz => "tar.gz"
  | .zip => "zip"
  | .rar => "rar"
  | .unknown => "unknown"

/-- `detectFileType` from `src/src/app/api/upload-system/route.ts`
(lines 27–34): lower-case the name, then test the suffixes
`.tar.gz`/`.tgz`, `.tar`, `.zip`, `.rar` in that order. -/
def detectFileType (filename : String) : FileType :=
  let lowerName := jsToLower filename
  if jsEndsWith lowerName ".tar.gz" || jsEndsWith lowerName ".tgz" then .targz
  else if jsEndsWith lowerName ".tar" then .tar
  else if jsEndsWith lowerName ".zip" then .zip
  else if jsEndsWith lowerName ".rar" then .rar
  else .unknown

/-- Modelled from the spec's words (§4.1 "Classify"): pure suffix match,
case-insensitive, checked in order `.tar.gz`/`.tgz` → TarGz; `.tar` → Tar;
`.zip` → Zip; `.rar` → Rar; else Unknown.  Used only to compare the spec's
classifier with the source's `detectFileType`. -/
def classifySpec (filename : String) : FileType :=
  let l := jsToLower filename
  if jsEndsWith l ".tar.gz" || jsEndsWith l ".tgz" then .targz
  else if jsEndsWith l ".tar" then .tar
  else if jsEndsWith l ".zip" then .zip
  else if jsEndsWith l ".rar" then .rar
  else .unknown

example : detectFileType "archive.tar.gz" = .targz := by decide
example : detectFileType "ARCHIVE.TAR.GZ" = .targz := by decide
example : detectFileType "a.TgZ" = .targz := by decide
example : detectFileType "a.tar" = .tar := by decide
example : detectFileType "a.zip" = .zip := by decide
example : detectFileType "a.RAR" = .rar := by decide
example : detectFileType "a.7z" = .unknown := by decide
example : detectFileType "payload.exe" = .unknown := by decide

/-- Leftmost match of the source's transcript regexes.  At each position the
alternation of `markers` is tried in order; a marker that matches as a prefix
must be followed by a tail accepted by the regex remainder — for
`plus = false` the remainder is a JavaScript regex tail of shape
"zero or more spaces then at least one character" (zip: any nonempty tail),
for `plus = true` "one or more spaces then at least one character" (rar: a
space then at least one further character).  On success the raw tail after
the marker is returned; trimming it yields exactly the regex capture after
the source applies `.trim()` (the capture differs from the tail only in
leading whitespace).  On failure the scan advances one character, as a
regex engine does. -/
def scanMarked (markers : List (List Char)) (plus : Bool) : List Char → Option (List Char)
  | [] => none
  | c :: cs =>
    match markers.findSome? (fun m =>
      if m.isPrefixOf (c :: cs) then
        let rest := (c :: cs).drop m.length
        if plus then
          match rest with
          | r1 :: _ :: _ => if isJsSpace r1 then some rest else none
          | _ => none
        else
          match rest with
          | [] => none
          | _ => some rest
      else none) with
    | some rest => some rest
    | none => scanMarked markers plus cs

/-- The zip/rar transcript parsing of `extractArchive` (lines 79–96):
filter the lines containing a marker, capture the text after the marker via
the regex, trim it, and drop empty captures.  A line containing a marker on
which the regex fails yields the empty string in the source and is dropped
by the final filter, so filtering by a successful scan is equivalent. -/
def parseMarked (markers : List (List Char)) (plus : Bool) (output : String) : List String :=
  ((splitLines output).filterMap
      (fun line => (scanMarked markers plus line.data).map
        (fun rest => String.mk (trimCharList rest)))).filter
    (fun s => s ≠ "")

/-- The tar/tar.gz transcript parsing (lines 97–100): every line whose
`trim` is nonempty is one extracted member name (the line itself, untrimmed). -/
def tarItems (output : String) : List String :=
  (splitLines output).filter (fun f => jsTrim f ≠ "")

def zipMarkers : List (List Char) := ["inflating:".data, "creating:".data]

def rarMarkers : List (List Char) := ["Extracting".data, "Creating".data]

/-- Outcome of one `execAsync` invocation of the extraction tool: whether it
exited zero within the timeout and output-buffer bound, its captured streams,
and — when it threw — the `error.message` the handler observes. -/
structure ExecOutcome where
  ok : Bool
  stdout : String
  stderr : String
  errMsg : String
deriving DecidableEq, Repr

/-- Result record of `extractArchive` (`{ success, items, error? }`);
the absent `error` field of the success case is modelled as `""`. -/
structure ExtractResult where
  success : Bool
  items : List String
  error : String
deriving DecidableEq, Repr

/-- `extractArchive` from `src/src/app/api/upload-system/route.ts`
(lines 37–113): pick the command by `fileType` (`unknown` returns an
unsupported-type failure before any execution); on a zero exit parse
`stdout + stderr` with the format-specific markers; on a thrown error
(non-zero exit, timeout, output-buffer overrun) return failure carrying
the error message. -/
def extractArchive (fileType : FileType) (ex : ExecOutcome) : ExtractResult :=
  match fileType with
  | .unknown => { success := false, items := [], error := "نوع ملف غير مدعوم" }
  | ft =>
    if ex.ok then
      let output := ex.stdout ++ ex.stderr
      let items :=
        if ft = .zip then parseMarked zipMarkers false output
        else if ft = .rar then parseMarked rarMarkers true output
        else tarItems output
      { success := true, items := items, error := "" }
    else
      { success := false, items := [], error := ex.errMsg }

example : tarItems "a.txt\nsub/b.txt\n" = ["a.txt", "sub/b.txt"] := by decide
example : tarItems "" = [] := by decide
example : tarItems "  \n  " = [] := by decide
example :
    parseMarked zipMarkers false "Archive: x.zip\n  inflating: a.txt\n   creating: d/\n" =
      ["a.txt", "d/"] := by decide
example : parseMarked zipMarkers false "  inflating:" = [] := by decide
example :
    parseMarked rarMarkers true "Extracting  a.txt    OK\nAll OK" = ["a.txt    OK"] := by decide
example : parseMarked rarMarkers true "Extracting " = [] := by decide
example :
    (extractArchive .tar { ok := true, stdout := "", stderr := "", errMsg := "" }).items = [] := by
  decide

/-- Phases of the `extractionStatus` singleton
(`'idle' | 'extracting' | 'success' | 'error'`). -/
inductive UStatus where
  | idle
  | extracting
  | success
  | error
deriving DecidableEq, Repr

/-- Entry kind of the displayed file list (`'file' | 'directory'`). -/
inductive EntryType where
  | file
  | directory
deriving DecidableEq, Repr

/-- One entry of the displayed file list (`{ path, size, type }`). -/
structure FileEntry where
  path : String
  size : Nat
  type : EntryType
deriving DecidableEq, Repr

/-- The module-level `extractionStatus` record of
`src/src/app/api/upload-system/route.ts` (lines 15–24). -/
structure ExtractionStatus where
  status : UStatus
  message : String
  progress : Nat
  files : List FileEntry
  totalFiles : Nat
  error : String
  fileType : String
  extractedFilePath : String
deriving DecidableEq, Repr

/-- One node of the extracted tree on disk, with its path relative to the
extraction directory; the model of `find`/`stat` reads it. -/
structure FsEntry where
  path : String
  isFile : Bool
  size : Nat
deriving DecidableEq, Repr

/-- Environment of one upload request: the request data and the outcome of
every external effect the handler performs. -/
structure UploadEnv where
  /-- `formData.get('file')` returned a file. -/
  filePresent : Bool
  /-- `file.name`. -/
  fileName : String
  /-- `file.size` in bytes. -/
  fileSize : Nat
  /-- `Date.now()` used in the temp-directory name. -/
  nowMs : Nat
  /-- `tmpdir()`. -/
  tmpdir : String
  /-- `process.cwd()`. -/
  cwd : String
  /-- `existsSync(extractedDir)` before the pre-extraction cleanup. -/
  prevExtractionExists : Bool
  /-- `writeFile(tempFilePath, buffer)` throws (representative throw point
  of the stage-write; reaches the handler's outer catch). -/
  writeTempFails : Bool
  /-- `error.message` of a thrown non-exec error. -/
  thrownMsg : String
  /-- Outcome of the extraction command. -/
  exec : ExecOutcome
  /-- The `find` listing commands throw (outer catch after extraction). -/
  findFails : Bool
  /-- The extracted tree `find` walks. -/
  tree : List FsEntry
  /-- `stat(file)` throws for the given absolute path. -/
  statFails : String → Bool
  /-- The best-effort `rm(tempDir)` cleanup throws. -/
  rmTempFails : Bool

/-- Side-effecting filesystem operations of the upload handler, in order of
attempted execution (reads — `find`, `stat` — are not mutations). -/
inductive UploadOp where
  | mkdirTemp (dir : String)
  | writeTempFile (path : String)
  | rmExtracted (dir : String)
  | mkdirExtracted (dir : String)
  | runExtract (cmd : String)
  | rmTemp (dir : String)
deriving DecidableEq, Repr

/-- The HTTP response of the upload handler: 200 success body or an error
status code with the body's `error` string. -/
inductive UploadResponse where
  | ok (message : String) (files : List FileEntry) (totalFiles : Nat)
      (fileType : String) (extractedPath : String)
  | err (code : Nat) (msg : String)
deriving DecidableEq, Repr

/-- Result of one modelled upload request: HTTP response, final singleton
state, ordered trace of every singleton state (one snapshot per assignment
in the source), and the ordered mutations attempted. -/
structure UploadResult where
  response : UploadResponse
  finalStatus : ExtractionStatus
  trace : List ExtractionStatus
  ops : List UploadOp

def ftOf (env : UploadEnv) : FileType := detectFileType env.fileName

/-- `join(projectRoot, 'extracted-system')`. -/
def extractedDirOf (env : UploadEnv) : String := env.cwd ++ "/extracted-system"

/-- `join(tmpdir(), 'upload-' + Date.now())`. -/
def tempDirOf (env : UploadEnv) : String := env.tmpdir ++ "/upload-" ++ toString env.nowMs

/-- Temp-file extension chosen per detected type (lines 166–169;
default `.tar`). -/
def tempExtOf (ft : FileType) : String :=
  if ft = .targz then ".tar.gz"
  else if ft = .zip then ".zip"
  else if ft = .rar then ".rar"
  else ".tar"

def tempFilePathOf (env : UploadEnv) : String :=
  tempDirOf env ++ "/upload" ++ tempExtOf (ftOf env)

/-- The extraction command string built by `extractArchive` (lines 46–69). -/
def extractCmd (ft : FileType) (filePath targetDir : String) : String :=
  match ft with
  | .tar => "tar -xvf \"" ++ filePath ++ "\" -C \"" ++ targetDir ++ "\" 2>&1"
  | .targz => "tar -xzvf \"" ++ filePath ++ "\" -C \"" ++ targetDir ++ "\" 2>&1"
  | .zip => "unzip -o \"" ++ filePath ++ "\" -d \"" ++ targetDir ++ "\" 2>&1"
  | .rar => "unrar x -o+ \"" ++ filePath ++ "\" \"" ++ targetDir ++ "/\" 2>&1"
  | .unknown => ""

/-- Megabyte count shown in the save-progress message; the source formats
`file.size / (1024*1024)` with `toFixed(2)`, abstracted here to the integer
quotient (no claim depends on the message text). -/
def mbStr (bytes : Nat) : String := toString (bytes / (1024 * 1024))

/-- The reset value assigned to `extractionStatus` at the start of every
upload request (lines 127–136). -/
def resetUploadStatus : ExtractionStatus :=
  { status := .extracting, message := "جاري قراءة الملف...", progress := 5,
    files := [], totalFiles := 0, error := "", fileType := "",
    extractedFilePath := "" }

/-- Snapshot after `extractionStatus.fileType = fileType` (line 157). -/
def uS1 (env : UploadEnv) : ExtractionStatus :=
  { resetUploadStatus with fileType := ftStr (ftOf env) }

/-- Snapshot after the save-progress message assignment (line 158). -/
def uS2 (env : UploadEnv) : ExtractionStatus :=
  { uS1 env with message := "جاري حفظ الملف (" ++ mbStr env.fileSize ++ " MB)..." }

/-- Snapshot after `progress = 10` (line 159). -/
def uS3 (env : UploadEnv) : ExtractionStatus := { uS2 env with progress := 10 }

/-- Snapshot after the disk-write message assignment (line 174). -/
def uS4 (env : UploadEnv) : ExtractionStatus :=
  { uS3 env with message := "جاري كتابة الملف على القرص..." }

/-- Snapshot after `progress = 15` (line 175). -/
def uS5 (env : UploadEnv) : ExtractionStatus := { uS4 env with progress := 15 }

/-- Snapshot after the extracting-from message assignment (line 184). -/
def uS6 (env : UploadEnv) : ExtractionStatus :=
  { uS5 env with
    message := "جاري استخراج الملف من " ++ jsToUpper (ftStr (ftOf env)) ++ "..." }

/-- Snapshot after `progress = 25` (line 185). -/
def uS7 (env : UploadEnv) : ExtractionStatus := { uS6 env with progress := 25 }

/-- Snapshot after the decompressing message assignment (line 200). -/
def uS8 (env : UploadEnv) : ExtractionStatus :=
  { uS7 env with message := "جاري فك ضغط ملفات النظام..." }

/-- Snapshot after `progress = 35` (line 201). -/
def uS9 (env : UploadEnv) : ExtractionStatus := { uS8 env with progress := 35 }

def itemsOf (env : UploadEnv) : List String :=
  (extractArchive (ftOf env) env.exec).items

/-- Snapshot after `progress = 55` (line 223). -/
def uS10 (env : UploadEnv) : ExtractionStatus := { uS9 env with progress := 55 }

/-- Snapshot after the found-k-items message assignment (line 224). -/
def uS11 (env : UploadEnv) : ExtractionStatus :=
  { uS10 env with
    message := "تم العثور على " ++ toString (itemsOf env).length ++ " عنصر" }

/-- Snapshot after the reading-file-list message assignment (line 227). -/
def uS12 (env : UploadEnv) : ExtractionStatus :=
  { uS11 env with message := "جاري قراءة قائمة الملفات..." }

/-- Snapshot after `progress = 65` (line 228). -/
def uS13 (env : UploadEnv) : ExtractionStatus := { uS12 env with progress := 65 }

/-- `find "$extractedDir" -type f | head -n 1000`, as entries of the tree. -/
def filesFoundOf (env : UploadEnv) : List FsEntry :=
  (env.tree.filter (fun e => e.isFile)).take 1000

/-- `find "$extractedDir" -type d | head -n 500`: `find` lists the root
directory itself first, then the subdirectories. -/
def dirsFoundOf (env : UploadEnv) : List String :=
  (extractedDirOf env ::
    (env.tree.filter (fun e => e.isFile = false)).map
      (fun e => extractedDirOf env ++ "/" ++ e.path)).take 500

/-- `totalFiles = parseInt(countOutput.trim()) || files.length` (line 241):
`find | wc -l` prints the true file count in decimal, `parseInt` recovers
it, and JavaScript `||` falls back to the capped list's length when the
parsed value is the falsy `0`. -/
def totalFilesOf (env : UploadEnv) : Nat :=
  let n := (env.tree.filter (fun e => e.isFile)).length
  if n = 0 then (filesFoundOf env).length else n

/-- `p.replace(extractedDir, '').replace(/^\//, '')` (lines 248, 260):
`find` output always begins with the root path, so removing the first
occurrence of the root coincides with stripping it as a prefix; then one
leading slash is removed. -/
def stripRoot (root p : String) : String :=
  if root.data.isPrefixOf p.data then
    String.mk
      (match p.data.drop root.data.length with
       | '/' :: t => t
       | r => r)
  else p

/-- The directory entries pushed onto the display list (lines 247–256):
the first 100 listed directories, skipping the root (empty relative path). -/
def dirEntriesOf (env : UploadEnv) : List FileEntry :=
  ((dirsFoundOf env).take 100).filterMap (fun d =>
    let rel := stripRoot (extractedDirOf env) d
    if rel = "" then none
    else some { path := rel, size := 0, type := EntryType.directory })

/-- The file entries pushed onto the display list (lines 259–277): the
first 500 listed files, skipping empty relative paths, with size 0 when
`stat` throws. -/
def fileEntriesOf (env : UploadEnv) : List FileEntry :=
  ((filesFoundOf env).take 500).filterMap (fun e =>
    let abs := extractedDirOf env ++ "/" ++ e.path
    let rel := stripRoot (extractedDirOf env) abs
    if rel = "" then none
    else some { path := rel, size := if env.statFails abs then 0 else e.size,
                type := EntryType.file })

/-- `fileList`: directories first, then files (lines 244–277). -/
def fileListOf (env : UploadEnv) : List FileEntry :=
  dirEntriesOf env ++ fileEntriesOf env

/-- Snapshot after `extractionStatus.files = fileList` (line 279). -/
def uS14 (env : UploadEnv) : ExtractionStatus :=
  { uS13 env with files := fileListOf env }

/-- Snapshot after `extractionStatus.totalFiles = totalFiles` (line 280). -/
def uS15 (env : UploadEnv) : ExtractionStatus :=
  { uS14 env with totalFiles := totalFilesOf env }

/-- Snapshot after `extractionStatus.status = 'success'` (line 281). -/
def uS16 (env : UploadEnv) : ExtractionStatus :=
  { uS15 env with status := UStatus.success }

/-- Snapshot after the success message assignment (line 282). -/
def uS17 (env : UploadEnv) : ExtractionStatus :=
  { uS16 env with message := "تم استخراج الملفات بنجاح!" }

/-- Snapshot after `progress = 100` (line 283). -/
def uS18 (env : UploadEnv) : ExtractionStatus := { uS17 env with progress := 100 }

/-- `POST` of `src/src/app/api/upload-system/route.ts` (lines 115–314).
Control flow of the source, branch by branch: reset the singleton; 400 when
no file is in the form data; 400 when the detected type is `unknown`
(both before any filesystem operation); stage the payload to a fresh temp
directory (a thrown stage write reaches the outer catch); remove and
recreate the extraction directory; run `extractArchive`; 500 on extraction
failure and on zero recovered items; list the tree (a thrown listing
reaches the outer catch); publish the capped display list and true total;
best-effort removal of the temp directory (its failure is swallowed);
200 success response.  The outer catch sets the singleton to the error
phase with the thrown message (default when the thrown value carries no
message, via `jsOr`). -/
def uploadPost (env : UploadEnv) : UploadResult :=
  let s0 := resetUploadStatus
  if env.filePresent = false then
    { response := .err 400 "لم يتم العثور على ملف",
      finalStatus := s0, trace := [s0], ops := [] }
  else if ftOf env = FileType.unknown then
    { response := .err 400 "صيغة الملف غير مدعومة. الصيغ المدعومة: .tar, .tar.gz, .zip, .rar",
      finalStatus := s0, trace := [s0], ops := [] }
  else
    let tempDir := tempDirOf env
    let preOps := [UploadOp.mkdirTemp tempDir,
                   UploadOp.writeTempFile (tempFilePathOf env)]
    let preTrace := [s0, uS1 env, uS2 env, uS3 env, uS4 env, uS5 env]
    if env.writeTempFails then
      let sE := { uS5 env with status := UStatus.error }
      let sE2 := { sE with error := jsOr env.thrownMsg "حدث خطأ غير متوقع" }
      { response := .err 500 sE2.error, finalStatus := sE2,
        trace := preTrace ++ [sE, sE2], ops := preOps }
    else
      let extractedDir := extractedDirOf env
      let ops3 := preOps ++
        (if env.prevExtractionExists then [UploadOp.rmExtracted extractedDir] else []) ++
        [UploadOp.mkdirExtracted extractedDir]
      let r := extractArchive (ftOf env) env.exec
      let ops4 := ops3 ++
        [UploadOp.runExtract (extractCmd (ftOf env) (tempFilePathOf env) extractedDir)]
      let trace9 := preTrace ++ [uS6 env, uS7 env, uS8 env, uS9 env]
      if r.success = false then
        let sE := { uS9 env with status := UStatus.error }
        let sE2 := { sE with error := jsOr r.error "خطأ في استخراج الملف" }
        { response := .err 500 sE2.error, finalStatus := sE2,
          trace := trace9 ++ [sE, sE2], ops := ops4 }
      else if r.items.length = 0 then
        let sE := { uS9 env with status := UStatus.error }
        let sE2 := { sE with error := "لم يتم العثور على ملفات داخل الأرشيف" }
        { response := .err 500 sE2.error, finalStatus := sE2,
          trace := trace9 ++ [sE, sE2], ops := ops4 }
      else
        let trace13 := trace9 ++ [uS10 env, uS11 env, uS12 env, uS13 env]
        if env.findFails then
          let sE := { uS13 env with status := UStatus.error }
          let sE2 := { sE with error := jsOr env.thrownMsg "حدث خطأ غير متوقع" }
          { response := .err 500 sE2.error, finalStatus := sE2,
            trace := trace13 ++ [sE, sE2], ops := ops4 }
        else
          { response := .ok "تم استخراج ملفات النظام بنجاح" (fileListOf env)
              (totalFilesOf env) (ftStr (ftOf env)) extractedDir,
            finalStatus := uS18 env,
            trace := trace13 ++ [uS14 env, uS15 env, uS16 env, uS17 env, uS18 env],
            ops := ops4 ++ [UploadOp.rmTemp tempDir] }

/-- Whether the operation list contains a temp-directory removal. -/
def hasRmTemp (ops : List UploadOp) : Bool :=
  ops.any (fun o => match o with | .rmTemp _ => true | _ => false)

/-- Whether the operation list contains a temp-directory creation
(the first filesystem mutation of the staging stage). -/
def hasMkdirTemp (ops : List UploadOp) : Bool :=
  ops.any (fun o => match o with | .mkdirTemp _ => true | _ => false)

/-- The invariant of claim C9 over one `extractionStatus` snapshot. -/
def statusInv (s : ExtractionStatus) : Prop :=
  (s.progress = 100 → s.status = UStatus.success) ∧
  (s.error ≠ "" → s.status = UStatus.error)

/-- A concrete upload environment whose run succeeds end to end: a `.tar`
upload extracting one directory and two files. -/
def envUploadSuccess : UploadEnv :=
  { filePresent := true, fileName := "sys.tar", fileSize := 1000, nowMs := 5,
    tmpdir := "/tmp", cwd := "/app", prevExtractionExists := true,
    writeTempFails := false, thrownMsg := "",
    exec := { ok := true, stdout := "a.txt\ndir/\ndir/b.txt\n", stderr := "",
              errMsg := "" },
    findFails := false,
    tree := [{ path := "dir", isFile := false, size := 0 },
             { path := "a.txt", isFile := true, size := 3 },
             { path := "dir/b.txt", isFile := true, size := 7 }],
    statFails := fun _ => false, rmTempFails := false }

example : totalFilesOf envUploadSuccess = 2 := by decide
example :
    fileListOf envUploadSuccess =
      [{ path := "dir", size := 0, type := EntryType.directory },
       { path := "a.txt", size := 3, type := EntryType.file },
       { path := "dir/b.txt", size := 7, type := EntryType.file }] := by decide
example : (uploadPost envUploadSuccess).finalStatus.status = UStatus.success := by decide
example : hasRmTemp (uploadPost envUploadSuccess).ops = true := by decide

/-- Phases of the `deployStatus` singleton
(`'idle' | 'deploying' | 'installing' | 'migrating' | 'success' | 'error'`). -/
inductive DStatus where
  | idle
  | deploying
  | installing
  | migrating
  | success
  | error
deriving DecidableEq, Repr

/-- The module-level `deployStatus` record of `src/deploy-route.ts`
(lines 11–17). -/
structure DeployStatus where
  status : DStatus
  message : String
  progress : Nat
  error : String
  step : String
deriving DecidableEq, Repr

/-- The initial `deployStatus` value at module load. -/
def deployIdle : DeployStatus :=
  { status := .idle, message := "", progress := 0, error := "", step := "" }

/-- One entry of the success response's `steps` array. -/
structure StepReport where
  step : String
  status : String
  message : String
deriving DecidableEq, Repr

/-- Side-effecting operations of the deploy handler, in order of attempted
execution. -/
inductive DeployOp where
  | mkdirBackup (dir : String)
  | rsync (cmd : String)
  | rmDir (dir : String)
  | mkdirDir (dir : String)
  | cpDir (src dest : String)
  | cpFile (src dest : String)
  | install
  | prismaGenerate
  | mkdirPrisma (dir : String)
  | cpDb (src dest : String)
  | writeRestart (path : String)
deriving DecidableEq, Repr

/-- Environment of one deploy request: the filesystem predicates the handler
consults and the outcome of every external command it runs.  Thrown error
messages are supplied per operation (`error.message` of the throwing call;
the handler's non-`Error` fallback string is subsumed by letting the
environment carry it). -/
structure DeployEnv where
  /-- `process.cwd()`. -/
  cwd : String
  /-- `existsSync(extractedDir)`. -/
  extractedExists : Bool
  /-- `existsSync(backupDir)`. -/
  backupExists : Bool
  /-- `mkdir(backupDir)` succeeds. -/
  mkdirBackupOk : Bool
  /-- The `rsync` copy command exits zero. -/
  rsyncOk : Bool
  /-- `existsSync` on the paths the fallback copy and the prisma/data steps
  test. -/
  pathExists : String → Bool
  /-- `rm(dir, { recursive, force })` succeeds, per directory. -/
  rmOk : String → Bool
  /-- `mkdir(dir, { recursive })` succeeds, per directory. -/
  mkdirOk : String → Bool
  /-- The `cp` commands succeed, per source path. -/
  cpOk : String → Bool
  /-- `bun install` exits zero within its timeout. -/
  installOk : Bool
  /-- `bun run db:generate` exits zero within its timeout. -/
  prismaGenOk : Bool
  /-- The database-file `cp` exits zero. -/
  dbCopyOk : Bool
  /-- `writeFile(restartFile, ...)` succeeds. -/
  writeRestartOk : Bool
  /-- `error.message` of the operation that threw, per operation. -/
  opErrMsg : DeployOp → String

/-- The HTTP response of the deploy handler: the 200 success body, the 400
`{ error }` body when no extraction exists, or the 500
`{ status: 'error', error }` body of the outer catch. -/
inductive DeployResponse where
  | ok (message : String) (progress : Nat) (steps : List StepReport)
  | noExtraction (error : String)
  | failed (error : String)
deriving DecidableEq, Repr

/-- Result of one modelled deploy request. -/
structure DeployResult where
  response : DeployResponse
  status : DeployStatus
  ops : List DeployOp

/-- The hardcoded `steps` array of the success response (lines 165–171):
every step is reported `done` unconditionally. -/
def hardcodedSteps : List StepReport :=
  [{ step := "backup", status := "done", message := "تم عمل نسخة احتياطية" },
   { step := "copy", status := "done", message := "تم نسخ ملفات النظام" },
   { step := "install", status := "done", message := "تم تثبيت الاعتمادات" },
   { step := "prisma", status := "done", message := "تم تهيئة قاعدة البيانات" },
   { step := "restart", status := "done", message := "جاري إعادة التشغيل" }]

/-- The fixed exclusion list of the rsync copy (lines 54–62). -/
def excludeList : List String :=
  ["node_modules", ".next", ".git", "dev.log", "server.log",
   "extracted-system", ".backup"]

/-- The rsync command string (lines 66–67). -/
def rsyncCmd (extractedDir projectRoot : String) : String :=
  "rsync -av " ++
    String.intercalate " " (excludeList.map (fun item => "--exclude=\"" ++ item ++ "\"")) ++
    " \"" ++ extractedDir ++ "/\" \"" ++ projectRoot ++ "/\" 2>&1"

/-- The fallback copy's directory allowlist (line 73). -/
def dirsToCopy : List String :=
  ["src", "public", "prisma", "db", "mini-services", "examples"]

/-- The fallback copy's file allowlist (line 74). -/
def filesToCopy : List String :=
  ["package.json", "tsconfig.json", "tailwind.config.ts", "next.config.ts",
   "Caddyfile", "eslint.config.mjs", "postcss.config.mjs"]

/-- The fallback copy's directory loop (lines 76–86): for each allowlisted
directory present in the extracted tree, remove an existing destination,
recreate it, and `cp -r` into it; the first throwing operation aborts the
whole handler (the loop runs inside no inner catch).  Returns the
operations attempted in order and the first failing operation, if any. -/
def fallbackDirs (env : DeployEnv) (extractedDir root : String) :
    List String → List DeployOp × Option DeployOp
  | [] => ([], none)
  | d :: rest =>
    let srcDir := extractedDir ++ "/" ++ d
    let destDir := root ++ "/" ++ d
    if env.pathExists srcDir then
      let pre := if env.pathExists destDir then [DeployOp.rmDir destDir] else []
      if env.pathExists destDir ∧ env.rmOk destDir = false then
        (pre, some (DeployOp.rmDir destDir))
      else if env.mkdirOk destDir = false then
        (pre ++ [DeployOp.mkdirDir destDir], some (DeployOp.mkdirDir destDir))
      else if env.cpOk srcDir = false then
        (pre ++ [DeployOp.mkdirDir destDir, DeployOp.cpDir srcDir destDir],
         some (DeployOp.cpDir srcDir destDir))
      else
        let (ops, f) := fallbackDirs env extractedDir root rest
        (pre ++ [DeployOp.mkdirDir destDir, DeployOp.cpDir srcDir destDir] ++ ops, f)
    else fallbackDirs env extractedDir root rest

/-- The fallback copy's file loop (lines 88–94): `cp` each allowlisted file
present in the extracted tree; the first throwing `cp` aborts the handler. -/
def fallbackFiles (env : DeployEnv) (extractedDir root : String) :
    List String → List DeployOp × Option DeployOp
  | [] => ([], none)
  | f :: rest =>
    let srcFile := extractedDir ++ "/" ++ f
    let destFile := root ++ "/" ++ f
    if env.pathExists srcFile then
      if env.cpOk srcFile = false then
        ([DeployOp.cpFile srcFile destFile], some (DeployOp.cpFile srcFile destFile))
      else
        let (ops, r) := fallbackFiles env extractedDir root rest
        (DeployOp.cpFile srcFile destFile :: ops, r)
    else fallbackFiles env extractedDir root rest

/-- The whole fallback copy (lines 68–95): directories, then files. -/
def fallbackCopy (env : DeployEnv) (extractedDir root : String) :
    List DeployOp × Option DeployOp :=
  let (dops, df) := fallbackDirs env extractedDir root dirsToCopy
  match df with
  | some op => (dops, some op)
  | none =>
    let (fops, ff) := fallbackFiles env extractedDir root filesToCopy
    (dops ++ fops, ff)

/-- The Copy step succeeds: either the rsync exits zero, or the fallback
sequence completes without a throw. -/
def copyStepOk (env : DeployEnv) : Prop :=
  env.rsyncOk = true ∨
    (fallbackCopy env (env.cwd ++ "/extracted-system") env.cwd).2 = none

instance (env : DeployEnv) : Decidable (copyStepOk env) := by
  unfold copyStepOk; infer_instance

/-- `deployStatus` after the reset of lines 30–36. -/
def dInit : DeployStatus :=
  { status := .deploying, message := "بدء نشر النظام...", progress := 5,
    error := "", step := "init" }

/-- `deployStatus` after the Backup-step assignments (lines 39–41). -/
def dBackup : DeployStatus :=
  { dInit with
    message := "جاري عمل نسخة احتياطية...", step := "backup", progress := 10 }

/-- `deployStatus` after the Copy-step assignments (lines 49–51). -/
def dCopy : DeployStatus :=
  { dBackup with
    message := "جاري نسخ ملفات النظام...", step := "copy", progress := 20 }

/-- `deployStatus` after the copy succeeded (lines 97–98). -/
def dCopied : DeployStatus :=
  { dCopy with progress := 50, message := "تم نسخ الملفات بنجاح" }

/-- `deployStatus` after the Install-step assignments (lines 101–104). -/
def dInstall : DeployStatus :=
  { dCopied with
    status := .installing, message := "جاري تثبيت الاعتمادات...",
    step := "install", progress := 60 }

/-- `deployStatus` after the Install try/catch (lines 106–118): success and
failure both reach progress 80, with different messages; failure is
swallowed. -/
def dInstallDone (env : DeployEnv) : DeployStatus :=
  if env.installOk then
    { dInstall with message := "تم تثبيت الاعتمادات", progress := 80 }
  else
    { dInstall with
      message := "تحذير: قد تحتاج لتشغيل bun install يدوياً", progress := 80 }

/-- `deployStatus` after the Migrate-step assignments (lines 121–124). -/
def dPrisma (env : DeployEnv) : DeployStatus :=
  { dInstallDone env with
    status := .migrating, message := "جاري تهيئة قاعدة البيانات...",
    step := "prisma", progress := 85 }

/-- `deployStatus` after the Prisma generation try/catch (lines 126–134):
the message changes only when the schema exists and the generation
succeeded; a failure is swallowed. -/
def dPrismaDone (env : DeployEnv) : DeployStatus :=
  if env.pathExists (env.cwd ++ "/prisma/schema.prisma") ∧ env.prismaGenOk then
    { dPrisma env with message := "تم تهيئة Prisma" }
  else dPrisma env

/-- `deployStatus` after the DataCopy try/catch (lines 136–151): the
message changes only when the source database exists, the prisma directory
existed or was created, and the copy succeeded; failures are swallowed. -/
def dDataDone (env : DeployEnv) : DeployStatus :=
  if env.pathExists (env.cwd ++ "/extracted-system/mushaf_source.db") ∧
      (env.pathExists (env.cwd ++ "/prisma") ∨ env.mkdirOk (env.cwd ++ "/prisma")) ∧
      env.dbCopyOk then
    { dPrismaDone env with message := "تم نسخ قاعدة البيانات" }
  else dPrismaDone env

/-- `deployStatus` after the success assignments (lines 153–155). -/
def dSuccess (env : DeployEnv) : DeployStatus :=
  { dDataDone env with
    status := .success, message := "تم نشر النظام بنجاح! جاري إعادة التشغيل...",
    progress := 100 }

/-- The outer catch of the deploy handler (lines 174–183): mark the
singleton errored with the thrown message and answer 500. -/
def deployFail (s : DeployStatus) (ops : List DeployOp) (msg : String) :
    DeployResult :=
  { response := .failed msg,
    status := { s with status := DStatus.error, error := msg }, ops := ops }

/-- The deploy pipeline from the Install step onwards (lines 100–172):
Install, Prisma generation and DataCopy failures are swallowed; the
restart-sentinel write is the last operation, and its failure reaches the
outer catch (after the singleton already shows success). -/
def deployRest (env : DeployEnv) (opsIn : List DeployOp) : DeployResult :=
  let projectRoot := env.cwd
  let extractedDir := projectRoot ++ "/extracted-system"
  let prismaDir := projectRoot ++ "/prisma"
  let sourceDb := extractedDir ++ "/mushaf_source.db"
  let destDb := projectRoot ++ "/prisma/dev.db"
  let ops1 := opsIn ++ [DeployOp.install]
  let ops2 := ops1 ++
    (if env.pathExists (projectRoot ++ "/prisma/schema.prisma") then
      [DeployOp.prismaGenerate]
     else [])
  let ops3 := ops2 ++
    (if env.pathExists sourceDb then
      (if env.pathExists prismaDir = false then
        (if env.mkdirOk prismaDir then
          [DeployOp.mkdirPrisma prismaDir, DeployOp.cpDb sourceDb destDb]
         else [DeployOp.mkdirPrisma prismaDir])
       else [DeployOp.cpDb sourceDb destDb])
     else [])
  let restartFile := projectRoot ++ "/.restart"
  let ops4 := ops3 ++ [DeployOp.writeRestart restartFile]
  if env.writeRestartOk = false then
    deployFail (dSuccess env) ops4 (env.opErrMsg (DeployOp.writeRestart restartFile))
  else
    { response := .ok "تم نشر النظام بنجاح!" 100 hardcodedSteps,
      status := dSuccess env, ops := ops4 }

/-- `POST` of `src/deploy-route.ts` (lines 19–184).  The existence check on
the extraction directory precedes the singleton reset, so a 400 leaves the
singleton untouched and performs no operation.  Backup-directory creation
and any throw inside the fallback copy reach the outer catch; an rsync
failure alone is caught and triggers the fallback. -/
def deployPost (prev : DeployStatus) (env : DeployEnv) : DeployResult :=
  let projectRoot := env.cwd
  let extractedDir := projectRoot ++ "/extracted-system"
  if env.extractedExists = false then
    { response := .noExtraction "لم يتم العثور على ملفات مستخرجة. قم برفع الملف أولاً.",
      status := prev, ops := [] }
  else
    let backupDir := projectRoot ++ "/.backup"
    let backupOps := if env.backupExists then [] else [DeployOp.mkdirBackup backupDir]
    if env.backupExists = false ∧ env.mkdirBackupOk = false then
      deployFail dBackup backupOps (env.opErrMsg (DeployOp.mkdirBackup backupDir))
    else
      let rs := DeployOp.rsync (rsyncCmd extractedDir projectRoot)
      if env.rsyncOk then
        deployRest env (backupOps ++ [rs])
      else
        let fb := fallbackCopy env extractedDir projectRoot
        match fb.2 with
        | some op => deployFail dCopy (backupOps ++ [rs] ++ fb.1) (env.opErrMsg op)
        | none => deployRest env (backupOps ++ [rs] ++ fb.1)

/-- `GET` of `src/deploy-route.ts` (lines 186–188): the polling endpoint
returns the singleton as-is. -/
def deployGet (s : DeployStatus) : DeployStatus := s

/-- A concrete deploy environment in which every step succeeds (rsync path,
no prisma schema, no database file). -/
def envDeployHappy : DeployEnv :=
  { cwd := "/app", extractedExists := true, backupExists := true,
    mkdirBackupOk := true, rsyncOk := true, pathExists := fun _ => false,
    rmOk := fun _ => true, mkdirOk := fun _ => true, cpOk := fun _ => true,
    installOk := true, prismaGenOk := true, dbCopyOk := true,
    writeRestartOk := true, opErrMsg := fun _ => "boom" }

/-- `envDeployHappy` with a failing `bun install`. -/
def envDeployInstallFail : DeployEnv := { envDeployHappy with installOk := false }

/-- `envDeployHappy` with no extraction present. -/
def envDeployNoExtraction : DeployEnv :=
  { envDeployHappy with extractedExists := false }

example :
    (deployPost deployIdle envDeployHappy).response =
      DeployResponse.ok "تم نشر النظام بنجاح!" 100 hardcodedSteps := by decide
example :
    (deployPost deployIdle envDeployInstallFail).response =
      DeployResponse.ok "تم نشر النظام بنجاح!" 100 hardcodedSteps := by decide
example : (deployPost deployIdle envDeployNoExtraction).ops = [] := by decide

/-- On a successful restart write, `deployRest` answers the fixed success
body and its operation list ends with the restart-sentinel write. -/
theorem deployRest_spec (env : DeployEnv) (opsIn : List DeployOp)
    (h : env.writeRestartOk = true) :
    (deployRest env opsIn).response =
      DeployResponse.ok "تم نشر النظام بنجاح!" 100 hardcodedSteps ∧
    DeployOp.writeRestart (env.cwd ++ "/.restart") ∈ (deployRest env opsIn).ops := by
  unfold deployRest
  simp only [h]
  refine ⟨by simp, ?_⟩
  simp

/-- Claim C1: for every run of the deploy pipeline in which the Init step
(extraction directory exists), the Backup step (backup directory exists or
its creation succeeds) and the Copy step succeed and the restart sentinel
write succeeds, `POST /deploy` answers the overall success response and the
sentinel write is among the performed operations — for every outcome of the
Install, Prisma-generation and DataCopy steps, since the environment's
`installOk`, `prismaGenOk`, `dbCopyOk` fields are universally quantified
and unconstrained. -/
theorem deploy_success_despite_nonfatal_failures
    (prev : DeployStatus) (env : DeployEnv)
    (hInit : env.extractedExists = true)
    (hBackup : env.backupExists = true ∨ env.mkdirBackupOk = true)
    (hCopy : copyStepOk env)
    (hRestart : env.writeRestartOk = true) :
    (deployPost prev env).response =
      DeployResponse.ok "تم نشر النظام بنجاح!" 100 hardcodedSteps ∧
    DeployOp.writeRestart (env.cwd ++ "/.restart") ∈ (deployPost prev env).ops := by
  unfold deployPost
  simp only [hInit]
  have hb : ¬(env.backupExists = false ∧ env.mkdirBackupOk = false) := by
    rcases hBackup with h | h <;> simp [h]
  simp only [Bool.true_eq_false, if_neg, hb, if_false]
  by_cases hr : env.rsyncOk
  · simp only [hr, if_true]
    exact deployRest_spec env _ hRestart
  · simp only [hr, if_false]
    rcases hCopy with h | h
    · exact absurd h (by simp [hr])
    · simp only [Bool.false_eq_true, if_false]
      rw [h]
      exact deployRest_spec env _ hRestart

/-- Witness for C1: with a failing `bun install`, the deploy still answers
the overall success response and writes the restart sentinel. -/
theorem deploy_success_despite_nonfatal_failures_witness :
    (deployPost deployIdle envDeployInstallFail).response =
      DeployResponse.ok "تم نشر النظام بنجاح!" 100 hardcodedSteps ∧
    DeployOp.writeRestart (envDeployInstallFail.cwd ++ "/.restart") ∈
      (deployPost deployIdle envDeployInstallFail).ops :=
  deploy_success_despite_nonfatal_failures deployIdle envDeployInstallFail
    (by decide) (Or.inl (by decide)) (Or.inl (by decide)) (by decide)

/-- On a successful restart write, the `steps` array of `deployRest`'s
response is the hardcoded constant. -/
theorem deployRest_steps (env : DeployEnv) (opsIn : List DeployOp)
    (m : String) (p : Nat) (st : List StepReport)
    (h : (deployRest env opsIn).response = DeployResponse.ok m p st) :
    st = hardcodedSteps := by
  unfold deployRest deployFail at h
  split at h
  · simp at h
  · simp only [DeployResponse.ok.injEq] at h
    exact h.2.2.symm

/-- Claim C6 counterexample: a deploy in which `bun install` fails still
reports the `install` step as `done` in its success response, because the
`steps` array is a hardcoded constant. -/
theorem deploy_steps_report_counterexample :
    envDeployInstallFail.installOk = false ∧
    (deployPost deployIdle envDeployInstallFail).response =
      DeployResponse.ok "تم نشر النظام بنجاح!" 100 hardcodedSteps ∧
    ({ step := "install", status := "done", message := "تم تثبيت الاعتمادات" } :
        StepReport) ∈ hardcodedSteps := by
  refine ⟨by decide, by decide, by decide⟩

/-- Every response of `deployRest` is either a 500 failure or the fixed
success body. -/
theorem deployRest_shape (env : DeployEnv) (opsIn : List DeployOp) :
    (∃ msg, (deployRest env opsIn).response = DeployResponse.failed msg) ∨
    (deployRest env opsIn).response =
      DeployResponse.ok "تم نشر النظام بنجاح!" 100 hardcodedSteps := by
  unfold deployRest deployFail
  split
  · exact Or.inl ⟨_, rfl⟩
  · exact Or.inr rfl

/-- Every response of `deployPost` is the 400 no-extraction error, a 500
failure, or the fixed success body. -/
theorem deployPost_response_shape (prev : DeployStatus) (env : DeployEnv) :
    (∃ msg, (deployPost prev env).response = DeployResponse.noExtraction msg) ∨
    (∃ msg, (deployPost prev env).response = DeployResponse.failed msg) ∨
    (deployPost prev env).response =
      DeployResponse.ok "تم نشر النظام بنجاح!" 100 hardcodedSteps := by
  unfold deployPost deployFail
  dsimp only
  repeat' split
  all_goals try exact Or.inl ⟨_, rfl⟩
  all_goals try exact Or.inr (Or.inl ⟨_, rfl⟩)
  all_goals exact Or.inr (deployRest_shape env _)

/-- Claim C6 as amended: the `steps` array of every successful `POST /deploy`
response is the fixed constant `hardcodedSteps`, which marks every step
`done` regardless of the steps' individual outcomes. -/
theorem deploy_success_steps_constant (prev : DeployStatus) (env : DeployEnv)
    (m : String) (p : Nat) (st : List StepReport)
    (h : (deployPost prev env).response = DeployResponse.ok m p st) :
    st = hardcodedSteps := by
  rcases deployPost_response_shape prev env with ⟨msg, hm⟩ | ⟨msg, hm⟩ | hok
  · rw [hm] at h; exact absurd h (by simp)
  · rw [hm] at h; exact absurd h (by simp)
  · rw [hok] at h
    simp only [DeployResponse.ok.injEq] at h
    exact h.2.2.symm

/-- Witness for the amended C6: a concrete all-success deploy, whose
response's `steps` array the theorem pins to the constant. -/
theorem deploy_success_steps_constant_witness :
    hardcodedSteps = hardcodedSteps :=
  deploy_success_steps_constant deployIdle envDeployHappy
    "تم نشر النظام بنجاح!" 100 hardcodedSteps (by decide)

/-- Claim C8: a deploy invoked with no extracted tree present answers the
404-style `noExtraction` error (HTTP 400) and performs no operation — no
backup creation, no copy, no later step. -/
theorem deploy_no_extraction_fails_fast (prev : DeployStatus) (env : DeployEnv)
    (h : env.extractedExists = false) :
    (deployPost prev env).response =
      DeployResponse.noExtraction "لم يتم العثور على ملفات مستخرجة. قم برفع الملف أولاً." ∧
    (deployPost prev env).ops = [] := by
  unfold deployPost
  simp [h]

/-- Witness for C8. -/
theorem deploy_no_extraction_fails_fast_witness :
    (deployPost deployIdle envDeployNoExtraction).response =
      DeployResponse.noExtraction "لم يتم العثور على ملفات مستخرجة. قم برفع الملف أولاً." ∧
    (deployPost deployIdle envDeployNoExtraction).ops = [] :=
  deploy_no_extraction_fails_fast deployIdle envDeployNoExtraction (by decide)

/-- A previous run's final success state, as a polling client would see it. -/
def deployPrevSuccess : DeployStatus :=
  { status := .success, message := "تم نشر النظام بنجاح! جاري إعادة التشغيل...",
    progress := 100, error := "", step := "prisma" }

/-- Claim C10: when the deploy fails because no extracted tree exists, the
`deployStatus` singleton is left entirely unchanged (the existence check
precedes the reset), so the polling `GET` continues to return the previous
run's final state. -/
theorem deploy_no_extraction_preserves_status (prev : DeployStatus)
    (env : DeployEnv) (h : env.extractedExists = false) :
    (deployPost prev env).status = prev ∧
    deployGet (deployPost prev env).status = prev := by
  unfold deployPost deployGet
  simp [h]

/-- Witness for C10: after a failed deploy the poll still shows the previous
success state. -/
theorem deploy_no_extraction_preserves_status_witness :
    (deployPost deployPrevSuccess envDeployNoExtraction).status = deployPrevSuccess ∧
    deployGet (deployPost deployPrevSuccess envDeployNoExtraction).status =
      deployPrevSuccess :=
  deploy_no_extraction_preserves_status deployPrevSuccess envDeployNoExtraction
    (by decide)

/-- Claim C2: `detectFileType` coincides with the spec's ordered
case-insensitive suffix classifier; its result depends only on the
lower-cased name (case-insensitivity); and any filename whose lower-cased
form ends in `.tar.gz` classifies as TarGz — never as Tar, since the
compound suffix is tested first. -/
theorem detectFileType_spec :
    (∀ name, detectFileType name = classifySpec name) ∧
    (∀ a b, jsToLower a = jsToLower b → detectFileType a = detectFileType b) ∧
    (∀ name, jsEndsWith (jsToLower name) ".tar.gz" = true →
      detectFileType name = FileType.targz) := by
  refine ⟨fun name => rfl, fun a b h => ?_, fun name h => ?_⟩
  · unfold detectFileType
    rw [h]
  · unfold detectFileType
    dsimp only
    rw [h]
    simp

/-- Witness for C2: a compound-suffix, mixed-case name classifies as TarGz,
and classification is unchanged by case. -/
theorem detectFileType_spec_witness :
    detectFileType "ARCHIVE.TAR.GZ" = FileType.targz ∧
    detectFileType "A.Zip" = detectFileType "a.zip" :=
  ⟨detectFileType_spec.2.2 "ARCHIVE.TAR.GZ" (by decide),
   detectFileType_spec.2.1 "A.Zip" "a.zip" (by decide)⟩

/-- `envUploadSuccess` with an unsupported filename. -/
def envUploadUnknown : UploadEnv := { envUploadSuccess with fileName := "payload.exe" }

/-- `envUploadSuccess` with the extraction tool exiting non-zero. -/
def envUploadToolFail : UploadEnv :=
  { envUploadSuccess with
    exec := { ok := false, stdout := "", stderr := "",
              errMsg := "tar: Error is not recoverable: exiting now" } }

/-- `envUploadSuccess` with a well-formed but empty archive: the tool exits
zero with an empty transcript, so zero member names are recovered. -/
def envUploadEmpty : UploadEnv :=
  { envUploadSuccess with
    exec := { ok := true, stdout := "", stderr := "", errMsg := "" }, tree := [] }

/-- Claim C3 counterexample: an upload of `payload.exe` is rejected with 400
before any filesystem mutation, but the `extractionStatus` singleton does
not record the validation error — it is left in the `extracting` phase with
an empty `error` field, because the reset at the start of the request is a
mutation and the early 400 return never writes the error back. -/
theorem upload_unknown_status_counterexample :
    (uploadPost envUploadUnknown).response =
      UploadResponse.err 400 "صيغة الملف غير مدعومة. الصيغ المدعومة: .tar, .tar.gz, .zip, .rar" ∧
    (uploadPost envUploadUnknown).ops = [] ∧
    (uploadPost envUploadUnknown).finalStatus.status = UStatus.extracting ∧
    (uploadPost envUploadUnknown).finalStatus.error = "" := by
  refine ⟨by decide, by decide, by decide, by decide⟩

/-- Claim C3 as amended: an upload whose filename classifies as Unknown is
rejected with 400 before any filesystem mutation, but the only mutation of
the extraction-status singleton is the unconditional reset to the
`extracting` phase performed at the start of every request — the validation
error itself is never recorded in the singleton. -/
theorem upload_unknown_rejected_before_mutation (env : UploadEnv)
    (h1 : env.filePresent = true)
    (h2 : detectFileType env.fileName = FileType.unknown) :
    (uploadPost env).response =
      UploadResponse.err 400 "صيغة الملف غير مدعومة. الصيغ المدعومة: .tar, .tar.gz, .zip, .rar" ∧
    (uploadPost env).ops = [] ∧
    (uploadPost env).finalStatus = resetUploadStatus := by
  unfold uploadPost ftOf
  simp [h1, h2]

/-- Witness for the amended C3. -/
theorem upload_unknown_rejected_before_mutation_witness :
    (uploadPost envUploadUnknown).response =
      UploadResponse.err 400 "صيغة الملف غير مدعومة. الصيغ المدعومة: .tar, .tar.gz, .zip, .rar" ∧
    (uploadPost envUploadUnknown).ops = [] ∧
    (uploadPost envUploadUnknown).finalStatus = resetUploadStatus :=
  upload_unknown_rejected_before_mutation envUploadUnknown (by decide) (by decide)

/-- A known archive kind whose tool exits zero yields a success record. -/
theorem extractArchive_success_of_ok (ft : FileType) (ex : ExecOutcome)
    (hft : ft ≠ FileType.unknown) (h : ex.ok = true) :
    (extractArchive ft ex).success = true := by
  cases ft <;> simp_all [extractArchive]

/-- A known archive kind whose tool throws yields the failure record. -/
theorem extractArchive_not_ok (ft : FileType) (ex : ExecOutcome)
    (hft : ft ≠ FileType.unknown) (h : ex.ok = false) :
    extractArchive ft ex = { success := false, items := [], error := ex.errMsg } := by
  cases ft <;> simp_all [extractArchive]

/-- Claim C4: an extraction whose tool exits successfully but whose
transcript yields zero member names ends the request with the HTTP 500
empty-archive error and the singleton in the error phase — never success. -/
theorem upload_empty_archive_errors (env : UploadEnv)
    (h1 : env.filePresent = true) (h2 : ftOf env ≠ FileType.unknown)
    (h3 : env.writeTempFails = false) (h4 : env.exec.ok = true)
    (h5 : (extractArchive (ftOf env) env.exec).items = []) :
    (uploadPost env).response =
      UploadResponse.err 500 "لم يتم العثور على ملفات داخل الأرشيف" ∧
    (uploadPost env).finalStatus.status = UStatus.error := by
  have hs := extractArchive_success_of_ok (ftOf env) env.exec h2 h4
  unfold uploadPost
  simp [h1, h2, h3, hs, h5]

/-- Witness for C4: a `.tar` whose transcript is empty. -/
theorem upload_empty_archive_errors_witness :
    (uploadPost envUploadEmpty).response =
      UploadResponse.err 500 "لم يتم العثور على ملفات داخل الأرشيف" ∧
    (uploadPost envUploadEmpty).finalStatus.status = UStatus.error :=
  upload_empty_archive_errors envUploadEmpty (by decide) (by decide) (by decide)
    (by decide) (by decide)

/-- Claim C5 counterexample: a request that reaches the extraction stage
(the staging directory was created) and fails there returns the 500 error
without ever removing the temporary staging directory. -/
theorem upload_cleanup_counterexample :
    hasMkdirTemp (uploadPost envUploadToolFail).ops = true ∧
    (uploadPost envUploadToolFail).response =
      UploadResponse.err 500 "tar: Error is not recoverable: exiting now" ∧
    hasRmTemp (uploadPost envUploadToolFail).ops = false := by
  refine ⟨by decide, by decide, by decide⟩

/-- Claim C5 as amended: the temporary staging directory removal is
attempted exactly on the fully-successful path (tool exited zero, at least
one member recovered, listing succeeded); on extraction-failure,
empty-archive and listing-failure paths the request returns without
removing it.  On the successful path the removal stays best-effort: the
response is the success body for either outcome of the removal, since the
environment's `rmTempFails` field is unconstrained. -/
theorem upload_temp_cleanup_only_on_success (env : UploadEnv)
    (h1 : env.filePresent = true) (h2 : ftOf env ≠ FileType.unknown)
    (h3 : env.writeTempFails = false) :
    (hasRmTemp (uploadPost env).ops = true ↔
      env.exec.ok = true ∧ (extractArchive (ftOf env) env.exec).items ≠ [] ∧
        env.findFails = false) ∧
    (env.exec.ok = true → (extractArchive (ftOf env) env.exec).items ≠ [] →
      env.findFails = false →
      (uploadPost env).response =
        UploadResponse.ok "تم استخراج ملفات النظام بنجاح" (fileListOf env)
          (totalFilesOf env) (ftStr (ftOf env)) (extractedDirOf env)) := by
  by_cases h4 : env.exec.ok = true
  · by_cases h5 : (extractArchive (ftOf env) env.exec).items = []
    · have hs := extractArchive_success_of_ok (ftOf env) env.exec h2 h4
      unfold uploadPost
      simp [h1, h2, h3, h4, h5, hs, hasRmTemp]
    · have hs := extractArchive_success_of_ok (ftOf env) env.exec h2 h4
      by_cases h6 : env.findFails
      · unfold uploadPost
        simp [h1, h2, h3, h4, h5, h6, hs, hasRmTemp]
      · unfold uploadPost
        simp [h1, h2, h3, h4, h5, h6, hs, hasRmTemp]
  · have hf := extractArchive_not_ok (ftOf env) env.exec h2 (by simpa using h4)
    unfold uploadPost
    simp [h1, h2, h3, h4, hf, hasRmTemp]

/-- Witness for the amended C5: the all-success environment, on which the
removal is attempted and the response is the success body. -/
theorem upload_temp_cleanup_only_on_success_witness :
    (hasRmTemp (uploadPost envUploadSuccess).ops = true ↔
      envUploadSuccess.exec.ok = true ∧
        (extractArchive (ftOf envUploadSuccess) envUploadSuccess.exec).items ≠ [] ∧
        envUploadSuccess.findFails = false) ∧
    (envUploadSuccess.exec.ok = true →
      (extractArchive (ftOf envUploadSuccess) envUploadSuccess.exec).items ≠ [] →
      envUploadSuccess.findFails = false →
      (uploadPost envUploadSuccess).response =
        UploadResponse.ok "تم استخراج ملفات النظام بنجاح" (fileListOf envUploadSuccess)
          (totalFilesOf envUploadSuccess) (ftStr (ftOf envUploadSuccess))
          (extractedDirOf envUploadSuccess)) :=
  upload_temp_cleanup_only_on_success envUploadSuccess (by decide) (by decide)
    (by decide)

/-- Every entry the directory loop pushes is a directory entry. -/
theorem mem_dirEntriesOf_type (env : UploadEnv) (e : FileEntry)
    (he : e ∈ dirEntriesOf env) : e.type = EntryType.directory := by
  unfold dirEntriesOf at he
  rw [List.mem_filterMap] at he
  rcases he with ⟨d, _, hsome⟩
  dsimp only at hsome
  split at hsome
  · cases hsome
  · cases hsome
    rfl

/-- Every entry the file loop pushes is a file entry. -/
theorem mem_fileEntriesOf_type (env : UploadEnv) (e : FileEntry)
    (he : e ∈ fileEntriesOf env) : e.type = EntryType.file := by
  unfold fileEntriesOf at he
  rw [List.mem_filterMap] at he
  rcases he with ⟨d, _, hsome⟩
  dsimp only at hsome
  split at hsome
  · cases hsome
  · cases hsome
    rfl

/-- Claim C7: on every successful extraction, the response carries the
display list and `totalFiles`; `totalFiles` equals the true, uncapped
number of regular files in the extracted tree; and the display list holds
at most 500 file entries and at most 100 directory entries. -/
theorem upload_totalFiles_and_caps (env : UploadEnv)
    (h1 : env.filePresent = true) (h2 : ftOf env ≠ FileType.unknown)
    (h3 : env.writeTempFails = false) (h4 : env.exec.ok = true)
    (h5 : (extractArchive (ftOf env) env.exec).items ≠ [])
    (h6 : env.findFails = false) :
    (uploadPost env).response =
      UploadResponse.ok "تم استخراج ملفات النظام بنجاح" (fileListOf env)
        (totalFilesOf env) (ftStr (ftOf env)) (extractedDirOf env) ∧
    totalFilesOf env = (env.tree.filter (fun e => e.isFile)).length ∧
    ((fileListOf env).filter (fun e => e.type = EntryType.file)).length ≤ 500 ∧
    ((fileListOf env).filter (fun e => e.type = EntryType.directory)).length ≤ 100 := by
  refine ⟨?_, ?_, ?_, ?_⟩
  · have hs := extractArchive_success_of_ok (ftOf env) env.exec h2 h4
    unfold uploadPost
    simp [h1, h2, h3, h4, h5, h6, hs]
  · unfold totalFilesOf filesFoundOf
    by_cases h : (env.tree.filter fun e => e.isFile).length = 0
    · have he : env.tree.filter (fun e => e.isFile) = [] := List.length_eq_zero.mp h
      simp [he]
    · simp [h]
  · unfold fileListOf
    rw [List.filter_append, List.length_append]
    have hd : (dirEntriesOf env).filter (fun e => e.type = EntryType.file) = [] := by
      rw [List.filter_eq_nil_iff]
      intro a ha
      simp [mem_dirEntriesOf_type env a ha]
    rw [hd]
    simp only [List.length_nil, Nat.zero_add]
    calc ((fileEntriesOf env).filter (fun e => e.type = EntryType.file)).length
        ≤ (fileEntriesOf env).length := List.length_filter_le _ _
      _ ≤ ((filesFoundOf env).take 500).length := by
          unfold fileEntriesOf
          exact List.length_filterMap_le _ _
      _ ≤ 500 := List.length_take_le _ _
  · unfold fileListOf
    rw [List.filter_append, List.length_append]
    have hf : (fileEntriesOf env).filter (fun e => e.type = EntryType.directory) = [] := by
      rw [List.filter_eq_nil_iff]
      intro a ha
      simp [mem_fileEntriesOf_type env a ha]
    rw [hf]
    simp only [List.length_nil, Nat.add_zero]
    calc ((dirEntriesOf env).filter (fun e => e.type = EntryType.directory)).length
        ≤ (dirEntriesOf env).length := List.length_filter_le _ _
      _ ≤ ((dirsFoundOf env).take 100).length := by
          unfold dirEntriesOf
          exact List.length_filterMap_le _ _
      _ ≤ 100 := List.length_take_le _ _

/-- Witness for C7. -/
theorem upload_totalFiles_and_caps_witness :
    (uploadPost envUploadSuccess).response =
      UploadResponse.ok "تم استخراج ملفات النظام بنجاح" (fileListOf envUploadSuccess)
        (totalFilesOf envUploadSuccess) (ftStr (ftOf envUploadSuccess))
        (extractedDirOf envUploadSuccess) ∧
    totalFilesOf envUploadSuccess =
      (envUploadSuccess.tree.filter (fun e => e.isFile)).length ∧
    ((fileListOf envUploadSuccess).filter
        (fun e => e.type = EntryType.file)).length ≤ 500 ∧
    ((fileListOf envUploadSuccess).filter
        (fun e => e.type = EntryType.directory)).length ≤ 100 :=
  upload_totalFiles_and_caps envUploadSuccess (by decide) (by decide) (by decide)
    (by decide) (by decide) (by decide)

/-- The invariant holds on every pre-error snapshot `uS1`–`uS13`: their
`error` field is empty and their progress never reaches 100. -/
theorem statusInv_pre (env : UploadEnv) :
    statusInv resetUploadStatus ∧ statusInv (uS1 env) ∧ statusInv (uS2 env) ∧
    statusInv (uS3 env) ∧ statusInv (uS4 env) ∧ statusInv (uS5 env) ∧
    statusInv (uS6 env) ∧ statusInv (uS7 env) ∧ statusInv (uS8 env) ∧
    statusInv (uS9 env) ∧ statusInv (uS10 env) ∧ statusInv (uS11 env) ∧
    statusInv (uS12 env) ∧ statusInv (uS13 env) := by
  simp [statusInv, resetUploadStatus, uS1, uS2, uS3, uS4, uS5, uS6, uS7, uS8,
    uS9, uS10, uS11, uS12, uS13]

/-- The invariant holds on the success snapshots `uS14`–`uS18`. -/
theorem statusInv_post (env : UploadEnv) :
    statusInv (uS14 env) ∧ statusInv (uS15 env) ∧ statusInv (uS16 env) ∧
    statusInv (uS17 env) ∧ statusInv (uS18 env) := by
  simp [statusInv, resetUploadStatus, uS1, uS2, uS3, uS4, uS5, uS6, uS7, uS8,
    uS9, uS10, uS11, uS12, uS13, uS14, uS15, uS16, uS17, uS18]

/-- The invariant holds on every error snapshot derived from a pre-error
snapshot: the status is the error phase. -/
theorem statusInv_err (s : ExtractionStatus) (msg : String)
    (h : s.progress ≠ 100) :
    statusInv { s with status := UStatus.error } ∧
    statusInv { s with status := UStatus.error, error := msg } := by
  simp [statusInv, h]

/-- Claim C9: at every point of any upload request — after every single
assignment to the `extractionStatus` singleton, on every branch — the
singleton satisfies: `progress = 100` only in the success phase, and a
nonempty `error` only in the error phase. -/
theorem upload_status_invariant (env : UploadEnv) (s : ExtractionStatus)
    (hs : s ∈ (uploadPost env).trace) : statusInv s := by
  unfold uploadPost at hs
  by_cases h1 : env.filePresent = false <;>
    by_cases h2 : ftOf env = FileType.unknown <;>
      by_cases h3 : env.writeTempFails <;>
        by_cases h4 : (extractArchive (ftOf env) env.exec).success = false <;>
          by_cases h5 : (extractArchive (ftOf env) env.exec).items.length = 0 <;>
            by_cases h6 : env.findFails <;>
              (try simp only [h1, h2, h3, h4, h5, h6, if_true, if_false,
                Bool.false_eq_true, Bool.true_eq_false, eq_self_iff_true,
                List.mem_append, List.mem_cons,
                List.not_mem_nil, or_false, or_assoc] at hs) <;>
              (repeat' rcases hs with rfl | hs) <;>
              simp [statusInv, resetUploadStatus, uS1, uS2, uS3, uS4, uS5, uS6,
                uS7, uS8, uS9, uS10, uS11, uS12, uS13, uS14, uS15, uS16, uS17,
                uS18]

/-- Witness for C9: the invariant at the final snapshot of a concrete
successful upload. -/
theorem upload_status_invariant_witness : statusInv (uS18 envUploadSuccess) :=
  upload_status_invariant envUploadSuccess (uS18 envUploadSuccess) (by decide)
